import Mathlib

set_option linter.unusedVariables false

/-!
Verification development for the PesaFlow payment-initiation and
callback-reconciliation subsystem (the Express relay in `src/server/index.js`).

The data model mirrors the Firestore documents the server reads and writes:
`transactions` (keyed by the provider-issued `CheckoutRequestID`), `users`
(carrying a `balance`), and `notifications`.  The two handlers modelled are
the `/stkPush` initiation route and the `/callback` reconciliation route.

Store writes are represented as an explicit operation trace so that the
atomicity of the success-path triple (status update, balance increment,
notification insert) — which the source wraps in a single
`db.runTransaction` — is visible in the model rather than implicit.
-/

namespace PesaFlow

/-- Transaction status, as stored in the `status` field. -/
inductive TxnStatus
  | PENDING
  | COMPLETED
  | FAILED
deriving DecidableEq

/-- Transaction type discriminator. -/
inductive TxnType
  | DEPOSIT
  | WITHDRAWAL
deriving DecidableEq

/-- A `transactions` collection document, with the fields written by the
`/stkPush` handler (`id`, `userId`, `amount`, `type`, `status`, `date`,
`description`, `phoneNumber`, `reference`). -/
structure Txn where
  id : String
  userId : String
  amount : Int
  type : TxnType
  status : TxnStatus
  date : String
  description : String
  phoneNumber : String
  reference : String
deriving DecidableEq

/-- A `users` collection document restricted to the fields the subsystem
touches: the document key and the `balance`. -/
structure UserRec where
  uid : String
  balance : Int
deriving DecidableEq

/-- A `notifications` collection document as written by the callback
handler's success path. -/
structure Notif where
  userId : String
  title : String
  message : String
  date : String
  read : Bool
  type : String
deriving DecidableEq

/-- The persistent state visible to the two handlers.  `dbInit` models
whether `admin.firestore()` was initialised (the source guards callback
handling with `if (!db)`, and the pending-transaction write with
`if (userId && db)`). -/
structure SysState where
  dbInit : Bool
  transactions : List Txn
  users : List UserRec
  notifications : List Notif
deriving DecidableEq

/-- Firestore document lookup `db.collection('transactions').doc(id).get()`:
the (at most one) transaction whose key equals `id`. -/
def getTxn (st : SysState) (id : String) : Option Txn :=
  st.transactions.find? (fun t => t.id == id)

/-- Firestore document lookup `db.collection('users').doc(uid)`. -/
def getUser (st : SysState) (uid : String) : Option UserRec :=
  st.users.find? (fun u => u.uid == uid)

/-! ### Phone normalisation and amount handling (`/stkPush`) -/

/-- JS `String.prototype.replace('+', '')` with a string pattern: removes
the first occurrence of `'+'` anywhere in the string (only the first). -/
def stripFirstPlus : List Char → List Char
  | [] => []
  | c :: cs => if c = '+' then cs else c :: stripFirstPlus cs

/-- JS `String.prototype.replace(/^0/, '254')`: rewrites a single leading
`'0'` to the characters `254`. -/
def zeroTo254 : List Char → List Char
  | [] => []
  | c :: cs => if c = '0' then '2' :: '5' :: '4' :: cs else c :: cs

/-- The source's phone normalisation
`phoneNumber.replace('+', '').replace(/^0/, '254')`. -/
def formatPhone (s : String) : String :=
  String.mk (zeroTo254 (stripFirstPlus s.data))

/-- JS `Math.floor`, applied by the source to the request amount both for
the upstream payload and for the recorded pending transaction.  JS numbers
carrying fractional currency values are modelled as rationals; `Math.floor`
rounds toward negative infinity. -/
def jsMathFloor (q : ℚ) : Int := ⌊q⌋

/-- Modelled from the spec: "Amount is always truncated toward zero".
Truncation toward zero, the operation the spec claims the source performs
(to be compared against `jsMathFloor`, the operation the source performs). -/
def truncTowardZero (q : ℚ) : Int := if 0 ≤ q then ⌊q⌋ else -⌊-q⌋

/-- The request body accepted by the `/stkPush` route:
`{phoneNumber, amount, accountReference, userId}`, the latter two possibly
absent. -/
structure StkRequest where
  phoneNumber : String
  amount : ℚ
  accountReference : Option String
  userId : Option String
deriving DecidableEq

/-- The provider's acceptance payload, echoed back to the caller as
`response.data`. -/
structure ProviderAccept where
  checkoutRequestID : String
  responseCode : String
  responseDescription : String
  customerMessage : String
deriving DecidableEq

/-- The slice of the upstream STK-push payload built by the handler that the
specification constrains: `Amount`, `PartyA`/`PhoneNumber`, and
`AccountReference`. -/
structure UpstreamRequest where
  amount : Int
  partyA : String
  phoneNumber : String
  accountReference : String
deriving DecidableEq

/-- The upstream payload fields as the handler computes them:
`Amount: Math.floor(amount)`, normalised phone, and the
`accountReference || "PesaFlow"` default. -/
def buildUpstream (req : StkRequest) : UpstreamRequest :=
  { amount := jsMathFloor req.amount
    partyA := formatPhone req.phoneNumber
    phoneNumber := formatPhone req.phoneNumber
    accountReference := req.accountReference.getD "PesaFlow" }

/-- The pending transaction document the handler writes under the
provider-issued `CheckoutRequestID`. -/
def pendingTxn (req : StkRequest) (uid cid now : String) : Txn :=
  { id := cid
    userId := uid
    amount := jsMathFloor req.amount
    type := TxnType.DEPOSIT
    status := TxnStatus.PENDING
    date := now
    description := "M-Pesa Topup"
    phoneNumber := formatPhone req.phoneNumber
    reference := req.accountReference.getD "PesaFlow" }

/-- Firestore `doc(id).set(record)`: an unconditional write that replaces an
existing document with the same key, or creates the document if absent. -/
def setDoc (l : List Txn) (t : Txn) : List Txn :=
  if l.any (fun x => x.id == t.id) then
    l.map (fun x => if x.id == t.id then t else x)
  else
    l ++ [t]

/-- The `/stkPush` handler after the provider has accepted the push and
returned `resp`: writes the pending transaction (via `set`) only when the
body carried a `userId` and the store is initialised, then returns the
provider payload unchanged.  `now` is the ISO timestamp taken at write
time. -/
def stkPush (st : SysState) (req : StkRequest) (resp : ProviderAccept)
    (now : String) : SysState × ProviderAccept :=
  match req.userId with
  | some uid =>
      if st.dbInit then
        let txns := setDoc st.transactions (pendingTxn req uid resp.checkoutRequestID now)
        ({ st with transactions := txns }, resp)
      else (st, resp)
  | none => (st, resp)

/-! ### Callback reconciliation (`/callback`) -/

/-- One `{Name, Value}` entry of `CallbackMetadata.Item`. -/
structure MetaItem where
  name : String
  value : String
deriving DecidableEq

/-- The `stkCallback` payload: `CheckoutRequestID`, `ResultCode`,
`ResultDesc`, and (present on provider success callbacks) the
`CallbackMetadata.Item` list.  An absent `CallbackMetadata` is `none`:
the source dereferences `body.CallbackMetadata.Item` without a guard, which
throws and is caught by the route's catch-all. -/
structure StkCallback where
  checkoutRequestID : String
  resultCode : Int
  resultDesc : String
  callbackMetadata : Option (List MetaItem)
deriving DecidableEq

/-- The raw POST body: either `{Body: {stkCallback: ...}}`, a bare
`{stkCallback: ...}`, or neither shape. -/
inductive RawBody
  | withEnvelope (cb : StkCallback)
  | bare (cb : StkCallback)
  | invalid
deriving DecidableEq

/-- `req.body.Body ? req.body.Body.stkCallback : req.body.stkCallback`,
yielding `none` exactly when neither nesting shape is present (the source
then answers 400 "Invalid Body"). -/
def parseBody : RawBody → Option StkCallback
  | RawBody.withEnvelope cb => some cb
  | RawBody.bare cb => some cb
  | RawBody.invalid => none

/-- The responses the `/callback` route can produce. -/
inductive CallbackResponse
  | ok
  | ignored
  | invalidBody
  | dbError
  | serverError
deriving DecidableEq

/-- `meta.find(i => i.Name === "MpesaReceiptNumber")` with the
`receiptItem ? receiptItem.Value : "REF"` fallback. -/
def findReceipt (items : List MetaItem) : String :=
  match items.find? (fun i => i.name == "MpesaReceiptNumber") with
  | some it => it.value
  | none => "REF"

/-- The notification document inserted on the success path. -/
def notifOf (uid : String) (amount : Int) (now : String) : Notif :=
  { userId := uid
    title := "Payment Received"
    message := "Confirmed: KES " ++ toString amount ++ " added."
    date := now
    read := false
    type := "success" }

/-- One write inside the success path's `db.runTransaction` closure. -/
inductive TxnWrite
  | completeTxn (id : String) (reference : String)
  | incBalance (userId : String) (amount : Int)
  | addNotif (n : Notif)
deriving DecidableEq

/-- A store operation issued by the callback handler: either one
all-or-nothing `db.runTransaction` carrying its writes, or the failure
path's plain `txnRef.update`. -/
inductive StoreOp
  | transact (ws : List TxnWrite)
  | failTxn (id : String) (description : String)
deriving DecidableEq

/-- Effect of one write inside a committed transaction.
`completeTxn` is `t.update(txnRef, {status: 'COMPLETED', reference})`
(a merge update on the matching document), `incBalance` is
`t.update(userRef, {balance: FieldValue.increment(amount)})`, and
`addNotif` is `t.set(notifRef, {...})` on a fresh document. -/
def applyWrite (st : SysState) (w : TxnWrite) : SysState :=
  match w with
  | TxnWrite.completeTxn id ref =>
      { st with transactions := st.transactions.map (fun t =>
          if t.id == id then
            { t with status := TxnStatus.COMPLETED, reference := ref }
          else t) }
  | TxnWrite.incBalance uid amt =>
      { st with users := st.users.map (fun u =>
          if u.uid == uid then { u with balance := u.balance + amt } else u) }
  | TxnWrite.addNotif n =>
      { st with notifications := st.notifications ++ [n] }

/-- Effect of a store operation.  A committed `transact` applies its writes
in order; `failTxn` is the failure path's merge update setting
`status: 'FAILED'` and the description. -/
def applyOp (st : SysState) (op : StoreOp) : SysState :=
  match op with
  | StoreOp.transact ws => ws.foldl applyWrite st
  | StoreOp.failTxn id desc =>
      { st with transactions := st.transactions.map (fun t =>
          if t.id == id then
            { t with status := TxnStatus.FAILED, description := desc }
          else t) }

/-- The branching of the `/callback` handler on a parsed `stkCallback`,
returning the store operations it issues and the HTTP response.
Mirrors the source in order: the `if (!db)` guard; the existence lookup
(`!txnDoc.exists` → ignored) — note the source checks only existence, not
that the status is still `PENDING`; the `resultCode === 0` split; the
`body.CallbackMetadata.Item` dereference (absent metadata throws, caught as
a 500 with nothing written); and the `runTransaction` whose `t.update` on a
nonexistent user document makes the whole transaction abort (caught as a
500 with nothing written). -/
def callbackOps (st : SysState) (cb : StkCallback) (now : String) :
    List StoreOp × CallbackResponse :=
  if st.dbInit = false then ([], CallbackResponse.dbError)
  else
    match getTxn st cb.checkoutRequestID with
    | none => ([], CallbackResponse.ignored)
    | some txn =>
        if cb.resultCode = 0 then
          match cb.callbackMetadata with
          | none => ([], CallbackResponse.serverError)
          | some items =>
              if (getUser st txn.userId).isSome then
                ([StoreOp.transact
                    [TxnWrite.completeTxn cb.checkoutRequestID (findReceipt items),
                     TxnWrite.incBalance txn.userId txn.amount,
                     TxnWrite.addNotif (notifOf txn.userId txn.amount now)]],
                 CallbackResponse.ok)
              else ([], CallbackResponse.serverError)
        else
          ([StoreOp.failTxn cb.checkoutRequestID ("Failed: " ++ cb.resultDesc)],
           CallbackResponse.ok)

/-- The `/callback` route: parse the body (400 on neither nesting shape),
compute the store operations and response, and apply the operations. -/
def handleCallback (st : SysState) (raw : RawBody) (now : String) :
    SysState × CallbackResponse :=
  match parseBody raw with
  | none => (st, CallbackResponse.invalidBody)
  | some cb =>
      let pr := callbackOps st cb now
      (pr.1.foldl applyOp st, pr.2)

/-! ### Concrete fixtures used to exercise the handlers -/

/-- A pending deposit for 500, as the scenario in the spec records it. -/
def txn0 : Txn :=
  { id := "req1", userId := "u1", amount := 500, type := TxnType.DEPOSIT,
    status := TxnStatus.PENDING, date := "d0", description := "M-Pesa Topup",
    phoneNumber := "254712345678", reference := "PesaFlow" }

/-- Initialised store holding `txn0` and its owner with balance 0. -/
def st0 : SysState :=
  { dbInit := true, transactions := [txn0],
    users := [{ uid := "u1", balance := 0 }], notifications := [] }

/-- The metadata items of a successful provider callback. -/
def items0 : List MetaItem := [{ name := "MpesaReceiptNumber", value := "NLJ7RT61SV" }]

/-- A successful callback for `txn0`. -/
def cb0 : StkCallback :=
  { checkoutRequestID := "req1", resultCode := 0, resultDesc := "Success",
    callbackMetadata := some items0 }

/-- `cb0` under the `{Body: {stkCallback}}` envelope. -/
def raw0 : RawBody := RawBody.withEnvelope cb0

/-- A failure callback for `txn0`'s id. -/
def cbFail : StkCallback :=
  { checkoutRequestID := "req1", resultCode := 1, resultDesc := "Cancelled",
    callbackMetadata := none }

/-- `cbFail` under the `{Body: {stkCallback}}` envelope. -/
def rawFail : RawBody := RawBody.withEnvelope cbFail

/-- A successful callback for `txn0` whose metadata lacks the
`MpesaReceiptNumber` line item. -/
def cbNoReceipt : StkCallback :=
  { checkoutRequestID := "req1", resultCode := 0, resultDesc := "Success",
    callbackMetadata := some [] }

/-- `cbNoReceipt` in the bare `{stkCallback}` shape. -/
def rawNoReceipt : RawBody := RawBody.bare cbNoReceipt

/-- `txn0` already reconciled: COMPLETED, owner balance already credited. -/
def stTerminal : SysState :=
  { dbInit := true,
    transactions := [{ txn0 with status := TxnStatus.COMPLETED, reference := "NLJ7RT61SV" }],
    users := [{ uid := "u1", balance := 500 }], notifications := [] }

/-- A store already holding a COMPLETED transaction under the id `cid1`. -/
def stDup : SysState :=
  { dbInit := true,
    transactions := [{ id := "cid1", userId := "u9", amount := 999,
                       type := TxnType.DEPOSIT, status := TxnStatus.COMPLETED,
                       date := "d8", description := "old",
                       phoneNumber := "254700000000", reference := "OLD" }],
    users := [], notifications := [] }

/-- An initiation request carrying a `userId`. -/
def reqDup : StkRequest :=
  { phoneNumber := "0712345678", amount := 50, accountReference := some "Test",
    userId := some "u2" }

/-- A provider acceptance whose request id collides with `stDup`'s record. -/
def respDup : ProviderAccept :=
  { checkoutRequestID := "cid1", responseCode := "0",
    responseDescription := "ok", customerMessage := "ok" }

/-- An uninitialised store. -/
def stNoDb : SysState :=
  { dbInit := false, transactions := [], users := [], notifications := [] }

/-- An initialised but empty store. -/
def stEmptyDb : SysState :=
  { dbInit := true, transactions := [], users := [], notifications := [] }

/-- An initiation request whose body omits `userId`. -/
def reqNoUser : StkRequest :=
  { phoneNumber := "0712345678", amount := 50, accountReference := none,
    userId := none }

/-- An initiation request used against the non-negative amount theorem. -/
def req100 : StkRequest :=
  { phoneNumber := "0712345678", amount := 1009/10, accountReference := none,
    userId := some "u1" }

end PesaFlow

namespace PesaFlow

theorem find_map_upd {α : Type} (p : α → Bool) (f : α → α)
    (hf : ∀ a, p a = true → p (f a) = true) (l : List α) :
    (l.map (fun a => if p a then f a else a)).find? p = (l.find? p).map f := by
  induction l with
  | nil => rfl
  | cons a l ih =>
      cases hpa : p a with
      | true => simp [List.find?_cons, hpa, hf a hpa]
      | false => simp [List.find?_cons, hpa, ih]

theorem stripFirstPlus_no_plus (l : List Char) (h : ∀ c ∈ l, c ≠ '+') :
    stripFirstPlus l = l := by
  induction l with
  | nil => rfl
  | cons c cs ih =>
      have hc : c ≠ '+' := h c (List.mem_cons_self c cs)
      simp [stripFirstPlus, hc, ih (fun d hd => h d (List.mem_cons_of_mem c hd))]

theorem digit_ne_plus (c : Char) (h : c.isDigit = true) : c ≠ '+' := by
  intro hc
  subst hc
  exact absurd h (by decide)

theorem getTxn_setDoc (l : List Txn) (t : Txn) :
    (setDoc l t).find? (fun x => x.id == t.id) = some t := by
  unfold setDoc
  by_cases h : l.any (fun x => x.id == t.id) = true
  · rw [if_pos h]
    have hfind := find_map_upd (fun x : Txn => x.id == t.id) (fun _ => t)
      (fun a _ => by simp) l
    rw [hfind]
    rcases List.any_eq_true.mp h with ⟨x, hx, hpx⟩
    have hsome : (l.find? (fun x => x.id == t.id)).isSome :=
      List.find?_isSome.mpr ⟨x, hx, hpx⟩
    rcases Option.isSome_iff_exists.mp hsome with ⟨y, hy⟩
    simp [hy]
  · rw [if_neg h]
    have hnone : l.find? (fun x => x.id == t.id) = none := by
      rw [List.find?_eq_none]
      intro x hx hpx
      exact h (List.any_eq_true.mpr ⟨x, hx, hpx⟩)
    rw [List.find?_append, hnone]
    simp [List.find?_cons]

theorem getTxn_complete (st : SysState) (id ref : String) :
    getTxn (applyWrite st (TxnWrite.completeTxn id ref)) id
      = (getTxn st id).map
          (fun t => { t with status := TxnStatus.COMPLETED, reference := ref }) :=
  find_map_upd (fun t : Txn => t.id == id)
    (fun t => { t with status := TxnStatus.COMPLETED, reference := ref })
    (fun a ha => ha) st.transactions

theorem getUser_inc (st : SysState) (uid : String) (amt : Int) :
    getUser (applyWrite st (TxnWrite.incBalance uid amt)) uid
      = (getUser st uid).map (fun v => { v with balance := v.balance + amt }) :=
  find_map_upd (fun v : UserRec => v.uid == uid)
    (fun v => { v with balance := v.balance + amt })
    (fun a ha => ha) st.users

theorem getTxn_failTxn (st : SysState) (id desc : String) :
    getTxn (applyOp st (StoreOp.failTxn id desc)) id
      = (getTxn st id).map
          (fun t => { t with status := TxnStatus.FAILED, description := desc }) :=
  find_map_upd (fun t : Txn => t.id == id)
    (fun t => { t with status := TxnStatus.FAILED, description := desc })
    (fun a ha => ha) st.transactions

theorem success_ops (st : SysState) (cb : StkCallback) (now : String)
    (txn : Txn) (u : UserRec) (items : List MetaItem)
    (hdb : st.dbInit = true)
    (hrc : cb.resultCode = 0)
    (hmeta : cb.callbackMetadata = some items)
    (htxn : getTxn st cb.checkoutRequestID = some txn)
    (hu : getUser st txn.userId = some u) :
    callbackOps st cb now =
      ([StoreOp.transact
          [TxnWrite.completeTxn cb.checkoutRequestID (findReceipt items),
           TxnWrite.incBalance txn.userId txn.amount,
           TxnWrite.addNotif (notifOf txn.userId txn.amount now)]],
       CallbackResponse.ok) := by
  simp [callbackOps, hdb, htxn, hrc, hmeta, hu]

theorem success_state (st : SysState) (raw : RawBody) (cb : StkCallback) (now : String)
    (txn : Txn) (u : UserRec) (items : List MetaItem)
    (hdb : st.dbInit = true)
    (hparse : parseBody raw = some cb)
    (hrc : cb.resultCode = 0)
    (hmeta : cb.callbackMetadata = some items)
    (htxn : getTxn st cb.checkoutRequestID = some txn)
    (hu : getUser st txn.userId = some u) :
    getTxn (handleCallback st raw now).1 cb.checkoutRequestID
        = some { txn with status := TxnStatus.COMPLETED, reference := findReceipt items }
    ∧ getUser (handleCallback st raw now).1 txn.userId
        = some { u with balance := u.balance + txn.amount }
    ∧ (handleCallback st raw now).1.notifications
        = st.notifications ++ [notifOf txn.userId txn.amount now]
    ∧ (handleCallback st raw now).2 = CallbackResponse.ok := by
  have hops := success_ops st cb now txn u items hdb hrc hmeta htxn hu
  have hh : handleCallback st raw now =
      (applyWrite (applyWrite (applyWrite st
          (TxnWrite.completeTxn cb.checkoutRequestID (findReceipt items)))
          (TxnWrite.incBalance txn.userId txn.amount))
          (TxnWrite.addNotif (notifOf txn.userId txn.amount now)),
       CallbackResponse.ok) := by
    simp [handleCallback, hparse, hops, applyOp, List.foldl]
  rw [hh]
  refine ⟨?_, ?_, rfl, rfl⟩
  · have h1 := getTxn_complete st cb.checkoutRequestID (findReceipt items)
    rw [htxn] at h1
    exact h1
  · have h2 := getUser_inc
      (applyWrite st (TxnWrite.completeTxn cb.checkoutRequestID (findReceipt items)))
      txn.userId txn.amount
    have h3 : getUser (applyWrite st
        (TxnWrite.completeTxn cb.checkoutRequestID (findReceipt items))) txn.userId
        = some u := hu
    rw [h3] at h2
    exact h2

/-- C1: a callback carrying `ResultCode = 0` whose `CheckoutRequestID` matches a
stored PENDING transaction leaves that transaction COMPLETED, increases the
owner's balance by exactly the transaction's recorded amount, and creates
exactly one new notification for that owner; the three writes are issued as a
single all-or-nothing store transaction, so no state with only part of them is
observable. -/
theorem callback_success_completes_atomically
    (st : SysState) (raw : RawBody) (cb : StkCallback) (now : String)
    (txn : Txn) (u : UserRec) (items : List MetaItem)
    (hdb : st.dbInit = true)
    (hparse : parseBody raw = some cb)
    (hrc : cb.resultCode = 0)
    (hmeta : cb.callbackMetadata = some items)
    (htxn : getTxn st cb.checkoutRequestID = some txn)
    (hpend : txn.status = TxnStatus.PENDING)
    (hu : getUser st txn.userId = some u) :
    getTxn (handleCallback st raw now).1 cb.checkoutRequestID
        = some { txn with status := TxnStatus.COMPLETED, reference := findReceipt items }
    ∧ getUser (handleCallback st raw now).1 txn.userId
        = some { u with balance := u.balance + txn.amount }
    ∧ (handleCallback st raw now).1.notifications
        = st.notifications ++ [notifOf txn.userId txn.amount now]
    ∧ (handleCallback st raw now).2 = CallbackResponse.ok
    ∧ callbackOps st cb now
        = ([StoreOp.transact
              [TxnWrite.completeTxn cb.checkoutRequestID (findReceipt items),
               TxnWrite.incBalance txn.userId txn.amount,
               TxnWrite.addNotif (notifOf txn.userId txn.amount now)]],
           CallbackResponse.ok) := by
  obtain ⟨h1, h2, h3, h4⟩ :=
    success_state st raw cb now txn u items hdb hparse hrc hmeta htxn hu
  exact ⟨h1, h2, h3, h4, success_ops st cb now txn u items hdb hrc hmeta htxn hu⟩

/-- Witness for C1 at the spec's scenario: pending deposit of 500 for user u1,
successful callback with receipt NLJ7RT61SV. -/
theorem callback_success_completes_atomically_witness :
    (st0.dbInit = true ∧ cb0.resultCode = 0 ∧ getTxn st0 cb0.checkoutRequestID = some txn0
      ∧ txn0.status = TxnStatus.PENDING
      ∧ getUser st0 txn0.userId = some { uid := "u1", balance := 0 })
    ∧ (getTxn (handleCallback st0 raw0 "t1").1 cb0.checkoutRequestID
          = some { txn0 with status := TxnStatus.COMPLETED, reference := findReceipt items0 }
      ∧ getUser (handleCallback st0 raw0 "t1").1 txn0.userId
          = some { uid := "u1", balance := 0 + 500 }
      ∧ (handleCallback st0 raw0 "t1").1.notifications
          = st0.notifications ++ [notifOf txn0.userId txn0.amount "t1"]
      ∧ (handleCallback st0 raw0 "t1").2 = CallbackResponse.ok
      ∧ callbackOps st0 cb0 "t1"
          = ([StoreOp.transact
                [TxnWrite.completeTxn cb0.checkoutRequestID (findReceipt items0),
                 TxnWrite.incBalance txn0.userId txn0.amount,
                 TxnWrite.addNotif (notifOf txn0.userId txn0.amount "t1")]],
             CallbackResponse.ok)) :=
  ⟨⟨rfl, rfl, by decide, rfl, by decide⟩,
   callback_success_completes_atomically st0 raw0 cb0 "t1" txn0
     { uid := "u1", balance := 0 } items0 rfl rfl rfl rfl (by decide) rfl (by decide)⟩

end PesaFlow

namespace PesaFlow

/-- C2 (code bug): the handler gates the atomic apply on the transaction
existing, not on it still being PENDING, so redelivering the identical
successful callback applies the balance increment twice: starting from
balance 0 and a pending deposit of 500, two deliveries of the same callback
end with balance 1000 and a second `ok` acknowledgement, where the claimed
check-and-set would leave 500. -/
theorem callback_redelivery_double_applies :
    getUser (handleCallback (handleCallback st0 raw0 "t1").1 raw0 "t2").1 "u1"
        = some { uid := "u1", balance := 1000 }
    ∧ (handleCallback (handleCallback st0 raw0 "t1").1 raw0 "t2").2
        = CallbackResponse.ok
    ∧ ((handleCallback (handleCallback st0 raw0 "t1").1 raw0 "t2").1.notifications).length
        = 2 := by decide

/-- C4 (code bug): statuses are not confined to transitions out of PENDING —
a callback with a non-zero result code for an already COMPLETED transaction
rewrites it to FAILED, reversing a terminal state. -/
theorem callback_terminal_state_reversal :
    getTxn stTerminal "req1"
        = some { txn0 with status := TxnStatus.COMPLETED, reference := "NLJ7RT61SV" }
    ∧ getTxn (handleCallback stTerminal rawFail "t3").1 "req1"
        = some { txn0 with
                 status := TxnStatus.FAILED,
                 reference := "NLJ7RT61SV",
                 description := "Failed: Cancelled" } := by decide

/-- C3 counterexample: a successful callback for an already COMPLETED
transaction is not ignored — it is answered `ok` and mutates the records,
crediting the owner a second time (500 becomes 1000). -/
theorem callback_terminal_not_ignored_cex :
    (handleCallback stTerminal raw0 "t9").2 = CallbackResponse.ok
    ∧ getUser (handleCallback stTerminal raw0 "t9").1 "u1"
        = some { uid := "u1", balance := 1000 } := by decide

/-- C3 (amended): a callback referencing an unknown transaction id never
errors, mutates nothing, and is answered with the `ignored` marker; a callback
whose id matches any stored transaction — terminal or not — is never answered
`ignored`. -/
theorem callback_unknown_ignored
    (st : SysState) (raw : RawBody) (cb : StkCallback) (now : String)
    (hdb : st.dbInit = true)
    (hparse : parseBody raw = some cb) :
    (getTxn st cb.checkoutRequestID = none →
        handleCallback st raw now = (st, CallbackResponse.ignored))
    ∧ (∀ txn, getTxn st cb.checkoutRequestID = some txn →
        (handleCallback st raw now).2 ≠ CallbackResponse.ignored) := by
  constructor
  · intro hnone
    simp [handleCallback, hparse, callbackOps, hdb, hnone, List.foldl]
  · intro txn htxn
    by_cases hrc : cb.resultCode = 0
    · cases hmeta : cb.callbackMetadata with
      | none => simp [handleCallback, hparse, callbackOps, hdb, htxn, hrc, hmeta]
      | some items =>
          by_cases hu : (getUser st txn.userId).isSome
          · simp [handleCallback, hparse, callbackOps, hdb, htxn, hrc, hmeta, hu]
          · simp [handleCallback, hparse, callbackOps, hdb, htxn, hrc, hmeta, hu]
    · simp [handleCallback, hparse, callbackOps, hdb, htxn, hrc]

/-- Witness for C3's amended theorem: an initialised empty store ignores a
callback for an id it has never seen, changing nothing. -/
theorem callback_unknown_ignored_witness :
    (stEmptyDb.dbInit = true ∧ parseBody raw0 = some cb0
      ∧ getTxn stEmptyDb cb0.checkoutRequestID = none)
    ∧ handleCallback stEmptyDb raw0 "t1" = (stEmptyDb, CallbackResponse.ignored) :=
  ⟨⟨rfl, rfl, by decide⟩,
   (callback_unknown_ignored stEmptyDb raw0 cb0 "t1" rfl rfl).1 (by decide)⟩

/-- C6: a callback with a non-zero result code matching a stored transaction
performs exactly one merge update on that transaction (status FAILED,
description "Failed: " followed by the provider's reason), leaves every user
balance and the notifications untouched, and is answered `ok`. -/
theorem callback_failure_frame
    (st : SysState) (raw : RawBody) (cb : StkCallback) (now : String) (txn : Txn)
    (hdb : st.dbInit = true)
    (hparse : parseBody raw = some cb)
    (hrc : ¬ cb.resultCode = 0)
    (htxn : getTxn st cb.checkoutRequestID = some txn) :
    getTxn (handleCallback st raw now).1 cb.checkoutRequestID
        = some { txn with status := TxnStatus.FAILED,
                          description := "Failed: " ++ cb.resultDesc }
    ∧ (handleCallback st raw now).1.transactions
        = st.transactions.map (fun t =>
            if t.id == cb.checkoutRequestID then
              { t with status := TxnStatus.FAILED,
                       description := "Failed: " ++ cb.resultDesc }
            else t)
    ∧ (handleCallback st raw now).1.users = st.users
    ∧ (handleCallback st raw now).1.notifications = st.notifications
    ∧ (handleCallback st raw now).2 = CallbackResponse.ok := by
  have hops : callbackOps st cb now
      = ([StoreOp.failTxn cb.checkoutRequestID ("Failed: " ++ cb.resultDesc)],
         CallbackResponse.ok) := by
    simp [callbackOps, hdb, htxn, hrc]
  have hh : handleCallback st raw now
      = (applyOp st (StoreOp.failTxn cb.checkoutRequestID ("Failed: " ++ cb.resultDesc)),
         CallbackResponse.ok) := by
    simp [handleCallback, hparse, hops, List.foldl]
  rw [hh]
  refine ⟨?_, rfl, rfl, rfl, rfl⟩
  have h1 := getTxn_failTxn st cb.checkoutRequestID ("Failed: " ++ cb.resultDesc)
  rw [htxn] at h1
  exact h1

/-- Witness for C6: the pending deposit of 500 fails with reason Cancelled;
only the transaction record changes. -/
theorem callback_failure_frame_witness :
    (st0.dbInit = true ∧ parseBody rawFail = some cbFail
      ∧ ¬ cbFail.resultCode = 0 ∧ getTxn st0 cbFail.checkoutRequestID = some txn0)
    ∧ (getTxn (handleCallback st0 rawFail "t2").1 cbFail.checkoutRequestID
          = some { txn0 with status := TxnStatus.FAILED,
                             description := "Failed: " ++ cbFail.resultDesc }
      ∧ (handleCallback st0 rawFail "t2").1.transactions
          = st0.transactions.map (fun t =>
              if t.id == cbFail.checkoutRequestID then
                { t with status := TxnStatus.FAILED,
                         description := "Failed: " ++ cbFail.resultDesc }
              else t)
      ∧ (handleCallback st0 rawFail "t2").1.users = st0.users
      ∧ (handleCallback st0 rawFail "t2").1.notifications = st0.notifications
      ∧ (handleCallback st0 rawFail "t2").2 = CallbackResponse.ok) :=
  ⟨⟨rfl, rfl, by decide, by decide⟩,
   callback_failure_frame st0 rawFail cbFail "t2" txn0 rfl rfl (by decide) (by decide)⟩

/-- C9: on the success path the receipt is the Value of the line item named
MpesaReceiptNumber when present; when that item is absent the placeholder
"REF" is substituted and the reconciliation still completes with `ok`. -/
theorem callback_receipt_extraction
    (st : SysState) (raw : RawBody) (cb : StkCallback) (now : String)
    (txn : Txn) (u : UserRec) (items : List MetaItem)
    (hdb : st.dbInit = true)
    (hparse : parseBody raw = some cb)
    (hrc : cb.resultCode = 0)
    (hmeta : cb.callbackMetadata = some items)
    (htxn : getTxn st cb.checkoutRequestID = some txn)
    (hpend : txn.status = TxnStatus.PENDING)
    (hu : getUser st txn.userId = some u) :
    (∀ it, items.find? (fun i => i.name == "MpesaReceiptNumber") = some it →
        findReceipt items = it.value)
    ∧ (items.find? (fun i => i.name == "MpesaReceiptNumber") = none →
        findReceipt items = "REF")
    ∧ getTxn (handleCallback st raw now).1 cb.checkoutRequestID
        = some { txn with status := TxnStatus.COMPLETED, reference := findReceipt items }
    ∧ (handleCallback st raw now).2 = CallbackResponse.ok := by
  obtain ⟨h1, _, _, h4⟩ :=
    success_state st raw cb now txn u items hdb hparse hrc hmeta htxn hu
  refine ⟨?_, ?_, h1, h4⟩
  · intro it hit
    simp [findReceipt, hit]
  · intro hnone
    simp [findReceipt, hnone]

/-- Witness for C9: metadata with no MpesaReceiptNumber item yields the
placeholder "REF" and the transaction still completes. -/
theorem callback_receipt_extraction_witness :
    (cbNoReceipt.resultCode = 0
      ∧ getTxn st0 cbNoReceipt.checkoutRequestID = some txn0
      ∧ getUser st0 txn0.userId = some { uid := "u1", balance := 0 })
    ∧ ((∀ it, ([] : List MetaItem).find? (fun i => i.name == "MpesaReceiptNumber") = some it →
          findReceipt [] = it.value)
      ∧ (([] : List MetaItem).find? (fun i => i.name == "MpesaReceiptNumber") = none →
          findReceipt [] = "REF")
      ∧ getTxn (handleCallback st0 rawNoReceipt "t1").1 cbNoReceipt.checkoutRequestID
          = some { txn0 with status := TxnStatus.COMPLETED, reference := findReceipt [] }
      ∧ (handleCallback st0 rawNoReceipt "t1").2 = CallbackResponse.ok) :=
  ⟨⟨rfl, by decide, by decide⟩,
   callback_receipt_extraction st0 rawNoReceipt cbNoReceipt "t1" txn0
     { uid := "u1", balance := 0 } [] rfl rfl rfl rfl (by decide) rfl (by decide)⟩

end PesaFlow

namespace PesaFlow

/-- C5 counterexample: the pending-transaction write is Firestore `set`, an
unconditional overwrite — initiating against a store that already holds a
COMPLETED transaction under the same id silently replaces that record and
returns the provider payload with no duplicate-id error. -/
theorem stkPush_overwrites_existing_cex :
    (getTxn stDup "cid1").isSome = true
    ∧ (stkPush stDup reqDup respDup "d9").1.transactions
        = [pendingTxn reqDup "u2" "cid1" "d9"]
    ∧ (stkPush stDup reqDup respDup "d9").2 = respDup := by
  exact ⟨by decide, rfl, rfl⟩

/-- C5 (amended): when the body carries a userId and the store is initialised,
the initiator writes the pending transaction keyed by the provider-issued
CheckoutRequestID before returning the provider payload, but the write is an
unconditional overwrite (`set`): an existing record under the same id is
silently replaced and no duplicate-id error is raised. -/
theorem stkPush_writes_pending_overwrite
    (st : SysState) (req : StkRequest) (resp : ProviderAccept) (now uid : String)
    (huid : req.userId = some uid) (hdb : st.dbInit = true) :
    (stkPush st req resp now).1.transactions
        = setDoc st.transactions (pendingTxn req uid resp.checkoutRequestID now)
    ∧ getTxn (stkPush st req resp now).1 resp.checkoutRequestID
        = some (pendingTxn req uid resp.checkoutRequestID now)
    ∧ (stkPush st req resp now).2 = resp := by
  have h1 : stkPush st req resp now
      = ({ st with transactions :=
             setDoc st.transactions (pendingTxn req uid resp.checkoutRequestID now) },
         resp) := by
    simp [stkPush, huid, hdb]
  rw [h1]
  exact ⟨rfl,
    getTxn_setDoc st.transactions (pendingTxn req uid resp.checkoutRequestID now),
    rfl⟩

/-- Witness for C5's amended theorem at the colliding-id input. -/
theorem stkPush_writes_pending_overwrite_witness :
    (reqDup.userId = some "u2" ∧ stDup.dbInit = true)
    ∧ ((stkPush stDup reqDup respDup "d9").1.transactions
          = setDoc stDup.transactions (pendingTxn reqDup "u2" respDup.checkoutRequestID "d9")
      ∧ getTxn (stkPush stDup reqDup respDup "d9").1 respDup.checkoutRequestID
          = some (pendingTxn reqDup "u2" respDup.checkoutRequestID "d9")
      ∧ (stkPush stDup reqDup respDup "d9").2 = respDup) :=
  ⟨⟨rfl, rfl⟩, stkPush_writes_pending_overwrite stDup reqDup respDup "d9" "u2" rfl rfl⟩

/-- C7 counterexample: the handler applies `Math.floor`, which rounds toward
negative infinity, not toward zero — at amount -100.9 the upstream amount is
-101 where truncation toward zero gives -100. -/
theorem amount_floor_not_trunc_cex :
    (buildUpstream { phoneNumber := "0712345678", amount := -1009/10,
                     accountReference := none, userId := none }).amount = -101
    ∧ truncTowardZero (-1009/10) = -100 := by
  constructor
  · show jsMathFloor (-1009/10) = -101
    norm_num [jsMathFloor]
  · rw [truncTowardZero, if_neg (by norm_num)]
    norm_num

/-- C7 (amended): the amount sent upstream and the amount recorded in the
pending transaction are both `Math.floor` of the requested amount (rounding
toward negative infinity); for non-negative amounts this coincides with
truncation toward zero. -/
theorem amount_floor_recorded (req : StkRequest) (uid cid now : String) :
    (buildUpstream req).amount = jsMathFloor req.amount
    ∧ (pendingTxn req uid cid now).amount = jsMathFloor req.amount
    ∧ (0 ≤ req.amount → jsMathFloor req.amount = truncTowardZero req.amount) := by
  refine ⟨rfl, rfl, ?_⟩
  intro h
  rw [truncTowardZero, if_pos h]
  rfl

/-- Witness for C7's amended theorem at amount 100.9, which floors to 100. -/
theorem amount_floor_recorded_witness :
    (0 ≤ req100.amount)
    ∧ ((buildUpstream req100).amount = jsMathFloor req100.amount
      ∧ (pendingTxn req100 "u1" "c1" "d1").amount = jsMathFloor req100.amount
      ∧ (0 ≤ req100.amount → jsMathFloor req100.amount = truncTowardZero req100.amount))
    ∧ jsMathFloor req100.amount = 100 := by
  refine ⟨by norm_num [req100], amount_floor_recorded req100 "u1" "c1" "d1", ?_⟩
  norm_num [req100, jsMathFloor]

/-- C8: for the three valid input shapes — a leading plus before 2547, a
leading 07, or a bare 2547 — followed by eight digits, the normalisation
yields the 2547 form followed by those digits. -/
theorem formatPhone_valid_formats (rest : List Char)
    (hdig : ∀ c ∈ rest, c.isDigit = true) (hlen : rest.length = 8) :
    formatPhone (String.mk ('+' :: '2' :: '5' :: '4' :: '7' :: rest))
        = String.mk ('2' :: '5' :: '4' :: '7' :: rest)
    ∧ formatPhone (String.mk ('0' :: '7' :: rest))
        = String.mk ('2' :: '5' :: '4' :: '7' :: rest)
    ∧ formatPhone (String.mk ('2' :: '5' :: '4' :: '7' :: rest))
        = String.mk ('2' :: '5' :: '4' :: '7' :: rest) := by
  have hnp : ∀ c ∈ rest, c ≠ '+' := fun c hc => digit_ne_plus c (hdig c hc)
  refine ⟨?_, ?_, ?_⟩
  · simp [formatPhone, stripFirstPlus, zeroTo254]
  · have h07 : ∀ c ∈ ('0' :: '7' :: rest), c ≠ '+' := by
      intro c hc
      rcases List.mem_cons.mp hc with rfl | hc
      · decide
      rcases List.mem_cons.mp hc with rfl | hc
      · decide
      · exact hnp c hc
    simp [formatPhone, stripFirstPlus_no_plus _ h07, zeroTo254]
  · have h2547 : ∀ c ∈ ('2' :: '5' :: '4' :: '7' :: rest), c ≠ '+' := by
      intro c hc
      rcases List.mem_cons.mp hc with rfl | hc
      · decide
      rcases List.mem_cons.mp hc with rfl | hc
      · decide
      rcases List.mem_cons.mp hc with rfl | hc
      · decide
      rcases List.mem_cons.mp hc with rfl | hc
      · decide
      · exact hnp c hc
    simp [formatPhone, stripFirstPlus_no_plus _ h2547, zeroTo254]

/-- Witness for C8 on the digits 12345678. -/
theorem formatPhone_valid_formats_witness :
    ((∀ c ∈ "12345678".data, c.isDigit = true) ∧ "12345678".data.length = 8)
    ∧ (formatPhone (String.mk ('+' :: '2' :: '5' :: '4' :: '7' :: "12345678".data))
          = String.mk ('2' :: '5' :: '4' :: '7' :: "12345678".data)
      ∧ formatPhone (String.mk ('0' :: '7' :: "12345678".data))
          = String.mk ('2' :: '5' :: '4' :: '7' :: "12345678".data)
      ∧ formatPhone (String.mk ('2' :: '5' :: '4' :: '7' :: "12345678".data))
          = String.mk ('2' :: '5' :: '4' :: '7' :: "12345678".data)) :=
  ⟨⟨by decide, by decide⟩,
   formatPhone_valid_formats "12345678".data (by decide) (by decide)⟩

/-- C10 counterexample: after an initiation against an uninitialised store
(which writes nothing), the later callback is answered with the 500 DB error,
not the `ignored` marker the claim asserts. -/
theorem callback_uninitialized_db_cex :
    (stkPush stNoDb reqDup respDup "d1").1 = stNoDb
    ∧ handleCallback stNoDb raw0 "t1" = (stNoDb, CallbackResponse.dbError)
    ∧ CallbackResponse.dbError ≠ CallbackResponse.ignored :=
  ⟨rfl, rfl, by decide⟩

/-- C10 (amended): when the body omits userId or the store is uninitialised,
stkPush returns the provider payload and writes nothing; a later callback for
that id is answered `ignored` with no state change when the store is
initialised, and answered with the DB error — again with no state change —
when it is not. -/
theorem stkPush_missing_user_no_write
    (st : SysState) (req : StkRequest) (resp : ProviderAccept) (now : String)
    (raw : RawBody) (cb : StkCallback)
    (hno : req.userId = none ∨ st.dbInit = false)
    (hparse : parseBody raw = some cb) :
    stkPush st req resp now = (st, resp)
    ∧ (st.dbInit = true → getTxn st cb.checkoutRequestID = none →
        handleCallback st raw now = (st, CallbackResponse.ignored))
    ∧ (st.dbInit = false → handleCallback st raw now = (st, CallbackResponse.dbError)) := by
  refine ⟨?_, ?_, ?_⟩
  · rcases hno with h | h
    · simp [stkPush, h]
    · cases huid : req.userId with
      | none => simp [stkPush, huid]
      | some uid => simp [stkPush, huid, h]
  · intro hdb hnone
    simp [handleCallback, hparse, callbackOps, hdb, hnone, List.foldl]
  · intro hdb
    simp [handleCallback, hparse, callbackOps, hdb, List.foldl]

/-- Witness for C10's amended theorem: a request without userId against the
initialised empty store. -/
theorem stkPush_missing_user_no_write_witness :
    (reqNoUser.userId = none ∨ stEmptyDb.dbInit = false)
    ∧ (stkPush stEmptyDb reqNoUser respDup "d1" = (stEmptyDb, respDup)
      ∧ (stEmptyDb.dbInit = true → getTxn stEmptyDb cb0.checkoutRequestID = none →
          handleCallback stEmptyDb raw0 "t1" = (stEmptyDb, CallbackResponse.ignored))
      ∧ (stEmptyDb.dbInit = false →
          handleCallback stEmptyDb raw0 "t1" = (stEmptyDb, CallbackResponse.dbError))) :=
  ⟨Or.inl rfl,
   stkPush_missing_user_no_write stEmptyDb reqNoUser respDup "d1" raw0 cb0 (Or.inl rfl) rfl⟩

end PesaFlow
